import Mathlib

/-!
Verification development for the Parking-Spot-Finder service (src/main.py).

Shallow embedding. The in-memory relational store (SQLAlchemy session over
three tables) is modelled as a record of three lists plus primary-key
counters. Each HTTP handler becomes a pure function from the store and the
validated payload to a result paired with the resulting store; a raised
HTTPException (or a pydantic validation failure, which fires before the
handler body runs) becomes an error value paired with the unchanged store,
which is faithful because every handler raises before its first mutation
and nothing is committed on a raising path.

Reservation start and end instants are stored by the service as ISO-8601
strings produced by datetime.isoformat and compared lexicographically; on
such equal-format strings lexicographic order coincides with chronological
order, so instants are embedded as natural numbers with the order on Nat.
Latitude and longitude (Python floats) are embedded as rationals, and the
floating-point haversine distance is abstracted as an explicit distance
function parameter of the search pipeline, so every search theorem is
proved for an arbitrary distance function.
-/

namespace Parking

/-- Row of the parking_lot table. -/
structure ParkingLot where
  id : Nat
  name : String
  latitude : Rat
  longitude : Rat
deriving DecidableEq, Repr

/-- Row of the parking_spot table. -/
structure ParkingSpot where
  id : Nat
  lot_id : Nat
  number : String
  type : String
  is_available : Bool
deriving DecidableEq, Repr

/-- Row of the reservation table; status is the literal string stored in the
status column ("active" or "ended"). -/
structure Reservation where
  id : Nat
  spot_id : Nat
  start_time : Nat
  end_time : Nat
  vehicle_plate : String
  status : String
deriving DecidableEq, Repr

/-- The whole store: the three tables plus the serial primary-key counters. -/
structure DB where
  lots : List ParkingLot
  spots : List ParkingSpot
  reservations : List Reservation
  next_lot_id : Nat
  next_spot_id : Nat
  next_res_id : Nat
deriving DecidableEq, Repr

/-- The empty store a fresh deployment starts from. -/
def initDB : DB := ⟨[], [], [], 1, 1, 1⟩

/-- Request body of POST /lots (schema LotCreate: no field constraints). -/
structure LotCreate where
  name : String
  latitude : Rat
  longitude : Rat
deriving DecidableEq, Repr

/-- Request body of POST /lots/id/spots (schema SpotCreate; the type field
defaults to "car"). -/
structure SpotCreate where
  number : String
  type : String := "car"
deriving DecidableEq, Repr

/-- Request body of POST /reservations (schema ReserveCreate). -/
structure ReserveCreate where
  spot_id : Nat
  start_time : Nat
  end_time : Nat
  vehicle_plate : String
deriving DecidableEq, Repr

/-- Error outcomes of the handlers: 422 pydantic validation, 404, 409, and
the 400 raised by end_reservation on a non-active reservation. -/
inductive ApiError where
  | validationError
  | notFound
  | conflict
  | invalidState
deriving DecidableEq, Repr

deriving instance DecidableEq for Except

/-- Pydantic pattern check on SpotCreate.type: regex (car|bike|ev). -/
def SpotCreate.validType (p : SpotCreate) : Bool :=
  p.type == "car" || p.type == "bike" || p.type == "ev"

/-- Pydantic validator ReserveCreate.check_order: rejects end_time ≤
start_time, so the payload is valid when start_time < end_time. -/
def ReserveCreate.validOrder (p : ReserveCreate) : Bool :=
  decide (p.start_time < p.end_time)

/-- db.get(ParkingLot, lid): primary-key lookup. -/
def DB.getLot (db : DB) (lid : Nat) : Option ParkingLot :=
  db.lots.find? (fun l => l.id == lid)

/-- db.get(ParkingSpot, sid): primary-key lookup. -/
def DB.getSpot (db : DB) (sid : Nat) : Option ParkingSpot :=
  db.spots.find? (fun s => s.id == sid)

/-- db.get(Reservation, rid): primary-key lookup. -/
def DB.getReservation (db : DB) (rid : Nat) : Option Reservation :=
  db.reservations.find? (fun r => r.id == rid)

/-- Assignment spot.is_available = b on the row with primary key sid. -/
def setSpotAvailability (spots : List ParkingSpot) (sid : Nat) (b : Bool) :
    List ParkingSpot :=
  spots.map (fun s => if s.id == sid then { s with is_available := b } else s)

/-- Handler create_lot (POST /lots): builds the row from the payload, adds
it and returns it; there is no validation of name, latitude or longitude. -/
def create_lot (db : DB) (p : LotCreate) : ParkingLot × DB :=
  let lot : ParkingLot := ⟨db.next_lot_id, p.name, p.latitude, p.longitude⟩
  (lot, { db with lots := db.lots ++ [lot], next_lot_id := db.next_lot_id + 1 })

/-- Handler create_spot (POST /lots/id/spots), composed with the pydantic
validation of SpotCreate that runs first: 404 if the lot is absent, 409 if
the per-lot spot number is taken, else insert an available spot. -/
def create_spot (db : DB) (lot_id : Nat) (p : SpotCreate) :
    Except ApiError ParkingSpot × DB :=
  if p.validType = false then (.error .validationError, db)
  else
    match db.getLot lot_id with
    | none => (.error .notFound, db)
    | some _ =>
      match db.spots.find? (fun s => s.lot_id == lot_id && s.number == p.number) with
      | some _ => (.error .conflict, db)
      | none =>
        let s : ParkingSpot := ⟨db.next_spot_id, lot_id, p.number, p.type, true⟩
        (.ok s, { db with spots := db.spots ++ [s],
                          next_spot_id := db.next_spot_id + 1 })

/-- Handler release_spot (POST /spots/id/release): 404 if absent, else set
is_available to true unconditionally and return the row. -/
def release_spot (db : DB) (sid : Nat) : Except ApiError ParkingSpot × DB :=
  match db.getSpot sid with
  | none => (.error .notFound, db)
  | some s =>
    (.ok { s with is_available := true },
     { db with spots := setSpotAvailability db.spots sid true })

/-- The overlap filter of create_reservation, exactly as in the query: same
spot, status "active", Reservation.start_time <= end AND
Reservation.end_time > start (note the non-strict first comparison). -/
def conflictsWith (p : ReserveCreate) (r : Reservation) : Bool :=
  r.spot_id == p.spot_id && r.status == "active" &&
    decide (r.start_time ≤ p.end_time) && decide (p.start_time < r.end_time)

/-- Handler create_reservation (POST /reservations), composed with the
pydantic check_order validator that runs first: 404 if the spot is absent,
409 if some active reservation on the spot passes the overlap filter, else
insert an active reservation and mark the spot unavailable. The handler
never reads is_available. -/
def create_reservation (db : DB) (p : ReserveCreate) :
    Except ApiError Reservation × DB :=
  if p.validOrder = false then (.error .validationError, db)
  else
    match db.getSpot p.spot_id with
    | none => (.error .notFound, db)
    | some _ =>
      match db.reservations.find? (conflictsWith p) with
      | some _ => (.error .conflict, db)
      | none =>
        let r : Reservation := ⟨db.next_res_id, p.spot_id, p.start_time,
                                p.end_time, p.vehicle_plate, "active"⟩
        (.ok r, { db with reservations := db.reservations ++ [r],
                          spots := setSpotAvailability db.spots p.spot_id false,
                          next_res_id := db.next_res_id + 1 })

/-- Handler end_reservation (POST /reservations/id/end): 404 if absent, 400
if the status is not "active", else set the status to "ended", set the
owning spot (when present) available, and return the updated row. -/
def end_reservation (db : DB) (rid : Nat) : Except ApiError Reservation × DB :=
  match db.getReservation rid with
  | none => (.error .notFound, db)
  | some r =>
    if r.status != "active" then (.error .invalidState, db)
    else
      (.ok { r with status := "ended" },
       { db with
         reservations := db.reservations.map
           (fun x => if x.id == rid then { x with status := "ended" } else x),
         spots := setSpotAvailability db.spots r.spot_id true })

/-- Rounding of a rational to the nearest integer with ties to even, the
tie rule of the Python builtin round. -/
def round_half_even (q : Rat) : Int :=
  let f := ⌊q⌋
  if q - f < 1/2 then f
  else if (1:Rat)/2 < q - f then f + 1
  else if f % 2 = 0 then f else f + 1

/-- round(d, 2): rounding to two decimal places. -/
def py_round2 (q : Rat) : Rat :=
  (round_half_even (q * 100) : Rat) / 100

/-- Coarse stage of search_spots: ids of the lots whose distance to the
query point is at most radius_m * 1.5. -/
def coarse_lot_ids (db : DB) (dist : Rat → Rat → Rat → Rat → Rat)
    (lat lng : Rat) (radius_m : Nat) : List Nat :=
  (db.lots.filter
    (fun l => decide (dist lat lng l.latitude l.longitude ≤ (radius_m : Rat) * 1.5))).map
    (fun l => l.id)

/-- The results list built by search_spots before sorting: available spots
of the coarse-kept lots whose exact lot distance is at most radius_m, each
paired with that distance rounded to two decimals. The lot_map lookup of
the loop body is the find? on db.lots. -/
def search_results (db : DB) (dist : Rat → Rat → Rat → Rat → Rat)
    (lat lng : Rat) (radius_m : Nat) : List (ParkingSpot × Rat) :=
  let ids := coarse_lot_ids db dist lat lng radius_m
  (db.spots.filter (fun s => s.is_available && decide (s.lot_id ∈ ids))).filterMap
    (fun s =>
      match db.lots.find? (fun l => l.id == s.lot_id) with
      | some L =>
        let d := dist lat lng L.latitude L.longitude
        if d ≤ (radius_m : Rat) then some (s, py_round2 d) else none
      | none => none)

/-- Handler search_spots (GET /spots/search): early return on an empty
coarse stage, else sort the results by the rounded distance (list.sort is
a stable merge sort) and truncate to limit. -/
def search_spots (db : DB) (dist : Rat → Rat → Rat → Rat → Rat)
    (lat lng : Rat) (radius_m limit : Nat) : List (ParkingSpot × Rat) :=
  if (coarse_lot_ids db dist lat lng radius_m).isEmpty then []
  else
    ((search_results db dist lat lng radius_m).mergeSort
      (fun a b => decide (a.2 ≤ b.2))).take limit

/-- Modelled from the spec: a single-stage search that filters every
available spot directly by the distance of its owning lot, with no coarse
lot-level stage; the comparison point for the refinement claim about the
two-stage filter. -/
def search_single_stage (db : DB) (dist : Rat → Rat → Rat → Rat → Rat)
    (lat lng : Rat) (radius_m : Nat) : List (ParkingSpot × Rat) :=
  db.spots.filterMap
    (fun s =>
      if s.is_available then
        match db.lots.find? (fun l => l.id == s.lot_id) with
        | some L =>
          let d := dist lat lng L.latitude L.longitude
          if d ≤ (radius_m : Rat) then some (s, py_round2 d) else none
        | none => none
      else none)

/-- One public mutating operation of the API, with any argument; for an
operation that raises, the resulting store equals the starting one, so
failing calls are steps too. -/
inductive Step : DB → DB → Prop where
  | lot (db : DB) (p : LotCreate) : Step db (create_lot db p).2
  | spot (db : DB) (lid : Nat) (p : SpotCreate) : Step db (create_spot db lid p).2
  | release (db : DB) (sid : Nat) : Step db (release_spot db sid).2
  | reserve (db : DB) (p : ReserveCreate) : Step db (create_reservation db p).2
  | endRes (db : DB) (rid : Nat) : Step db (end_reservation db rid).2

/-- Stores reachable from the empty store by the public operations. -/
def Reachable (db : DB) : Prop := Relation.ReflTransGen Step initDB db

/-- Every spot marked unavailable has at least one active reservation. -/
def availability_implies_active (db : DB) : Prop :=
  ∀ s ∈ db.spots, s.is_available = false →
    ∃ r ∈ db.reservations, r.spot_id = s.id ∧ r.status = "active"

/-- Any two active reservations on the same spot have non-overlapping
half-open windows (strict overlap test of the glossary). -/
def active_windows_disjoint (db : DB) : Prop :=
  db.reservations.Pairwise (fun r1 r2 => r1.spot_id = r2.spot_id →
    r1.status = "active" → r2.status = "active" →
    ¬(r1.start_time < r2.end_time ∧ r2.start_time < r1.end_time))

/-- Reservation primary keys are below the counter and pairwise distinct. -/
def res_ids_ok (db : DB) : Prop :=
  (∀ r ∈ db.reservations, r.id < db.next_res_id) ∧
    db.reservations.Pairwise (fun a b => a.id ≠ b.id)

/-- The inductive invariant carried through every step. -/
def DBInv (db : DB) : Prop :=
  res_ids_ok db ∧ availability_implies_active db ∧ active_windows_disjoint db

/-- Scenario: one lot at the origin. -/
def db1 : DB := (create_lot initDB ⟨"L", 0, 0⟩).2

/-- Scenario: one available car spot with id 1 in lot 1. -/
def db2 : DB := (create_spot db1 1 ⟨"A", "car"⟩).2

/-- Scenario: spot 1 holds an active reservation on the window 10 to 11 and
is marked unavailable. -/
def db3 : DB := (create_reservation db2 ⟨1, 10, 11, "KA01"⟩).2

/-- Scenario: release_spot was applied to db3, so spot 1 is marked
available while its reservation is still active. -/
def db4 : DB := (release_spot db3 1).2

/-- Scenario: a second, disjoint active reservation on the window 20 to 21
was added on spot 1 starting from db3. -/
def db5 : DB := (create_reservation db3 ⟨1, 20, 21, "KA02"⟩).2

lemma reachable_db1 : Reachable db1 :=
  Relation.ReflTransGen.single (Step.lot initDB ⟨"L", 0, 0⟩)

lemma reachable_db2 : Reachable db2 :=
  reachable_db1.tail (Step.spot db1 1 ⟨"A", "car"⟩)

lemma reachable_db3 : Reachable db3 :=
  reachable_db2.tail (Step.reserve db2 ⟨1, 10, 11, "KA01"⟩)

lemma reachable_db4 : Reachable db4 :=
  reachable_db3.tail (Step.release db3 1)

lemma reachable_db5 : Reachable db5 :=
  reachable_db3.tail (Step.reserve db3 ⟨1, 20, 21, "KA02"⟩)

lemma inv_create_lot (db : DB) (p : LotCreate) (h : DBInv db) :
    DBInv (create_lot db p).2 := by
  simpa [DBInv, res_ids_ok, availability_implies_active, active_windows_disjoint,
    create_lot] using h

lemma inv_create_spot (db : DB) (lid : Nat) (p : SpotCreate) (h : DBInv db) :
    DBInv (create_spot db lid p).2 := by
  unfold create_spot
  split
  · exact h
  · split
    · exact h
    · split
      · exact h
      · refine ⟨h.1, ?_, h.2.2⟩
        intro s' hs' hfalse
        rcases List.mem_append.mp hs' with h1 | h1
        · exact h.2.1 s' h1 hfalse
        · simp only [List.mem_singleton] at h1
          subst h1
          simp at hfalse

lemma inv_release_spot (db : DB) (sid : Nat) (h : DBInv db) :
    DBInv (release_spot db sid).2 := by
  unfold release_spot
  split
  · exact h
  · refine ⟨h.1, ?_, h.2.2⟩
    intro s' hs' hfalse
    rcases List.mem_map.mp hs' with ⟨s0, hs0, rfl⟩
    by_cases hid : (s0.id == sid) = true
    · simp [hid] at hfalse
    · simp only [Bool.not_eq_true] at hid
      simp only [hid, Bool.false_eq_true, if_false] at hfalse ⊢
      exact h.2.1 s0 hs0 hfalse

lemma inv_create_reservation (db : DB) (p : ReserveCreate) (h : DBInv db) :
    DBInv (create_reservation db p).2 := by
  unfold create_reservation
  split
  · exact h
  · split
    · exact h
    · split
      · exact h
      · rename_i hspot hfind
        dsimp only
        refine ⟨⟨?_, ?_⟩, ?_, ?_⟩
        · intro r hr
          rcases List.mem_append.mp hr with h1 | h1
          · exact Nat.lt_succ_of_lt (h.1.1 r h1)
          · simp only [List.mem_singleton] at h1
            subst h1
            exact Nat.lt_succ_self _
        · rw [List.pairwise_append]
          refine ⟨h.1.2, List.pairwise_singleton _ _, ?_⟩
          intro a ha b hb
          simp only [List.mem_singleton] at hb
          subst hb
          exact Nat.ne_of_lt (h.1.1 a ha)
        · intro s' hs' hfalse
          rcases List.mem_map.mp hs' with ⟨s0, hs0, rfl⟩
          by_cases hid : (s0.id == p.spot_id) = true
          · have hids : s0.id = p.spot_id := beq_iff_eq.mp hid
            refine ⟨⟨db.next_res_id, p.spot_id, p.start_time, p.end_time,
              p.vehicle_plate, "active"⟩,
              List.mem_append_right _ (List.mem_singleton.mpr rfl), ?_, rfl⟩
            simp [hid, hids]
          · simp only [Bool.not_eq_true] at hid
            simp only [hid, Bool.false_eq_true, if_false] at hfalse ⊢
            obtain ⟨r', hr'mem, hr'spot, hr'act⟩ := h.2.1 s0 hs0 hfalse
            exact ⟨r', List.mem_append_left _ hr'mem, hr'spot, hr'act⟩
        · unfold active_windows_disjoint
          dsimp only
          rw [List.pairwise_append]
          refine ⟨h.2.2, List.pairwise_singleton _ _, ?_⟩
          intro a ha b hb
          simp only [List.mem_singleton] at hb
          subst hb
          intro haspot haact _ hov
          have hnc := List.find?_eq_none.mp hfind a ha
          simp only [conflictsWith, Bool.and_eq_true, beq_iff_eq,
            decide_eq_true_eq, not_and] at hnc
          exact (hnc ⟨⟨haspot, haact⟩, Nat.le_of_lt hov.1⟩ : ¬ _) hov.2

lemma inv_end_reservation (db : DB) (rid : Nat) (h : DBInv db) :
    DBInv (end_reservation db rid).2 := by
  unfold end_reservation
  split
  · exact h
  · rename_i r hr
    split
    · exact h
    · rename_i hact
      dsimp only
      have hr2 : db.reservations.find? (fun x => x.id == rid) = some r := hr
      have hmem : r ∈ db.reservations := List.mem_of_find?_eq_some hr2
      have hrid : r.id = rid := by
        have hp := List.find?_some hr2
        simpa using hp
      have hidpres : ∀ x : Reservation,
          (if (x.id == rid) = true then { x with status := "ended" } else x).id
            = x.id := by
        intro x
        by_cases hc : (x.id == rid) = true <;> simp [hc]
      refine ⟨⟨?_, ?_⟩, ?_, ?_⟩
      · intro x hx
        rcases List.mem_map.mp hx with ⟨x0, hx0, rfl⟩
        rw [hidpres]
        exact h.1.1 x0 hx0
      · refine List.pairwise_map.mpr (h.1.2.imp ?_)
        intro a b hab
        rw [hidpres, hidpres]
        exact hab
      · intro s' hs' hfalse
        rcases List.mem_map.mp hs' with ⟨s0, hs0, rfl⟩
        by_cases hc : (s0.id == r.spot_id) = true
        · simp [hc] at hfalse
        · simp only [Bool.not_eq_true] at hc
          simp only [hc, Bool.false_eq_true, if_false] at hfalse ⊢
          obtain ⟨r', hr'mem, hr'spot, hr'act⟩ := h.2.1 s0 hs0 hfalse
          have hspotne : s0.id ≠ r.spot_id := by
            intro hcc
            simp [hcc] at hc
          have hne : (r'.id == rid) = false := by
            by_cases hrr : r' = r
            · exact absurd (hrr ▸ hr'spot) (fun hx => hspotne hx.symm)
            · have hsym : Symmetric (fun a b : Reservation => a.id ≠ b.id) :=
                fun _ _ hx => hx.symm
              have hneid : r'.id ≠ r.id := (h.1.2.forall hsym) hr'mem hmem hrr
              exact beq_eq_false_iff_ne.mpr (hrid ▸ hneid)
          refine ⟨r', List.mem_map.mpr ⟨r', hr'mem, by simp [hne]⟩, hr'spot, hr'act⟩
      · refine List.pairwise_map.mpr (h.2.2.imp ?_)
        intro a b hab hspot hact1 hact2 hov
        by_cases hc1 : (a.id == rid) = true <;> by_cases hc2 : (b.id == rid) = true <;>
          simp only [hc1, hc2, if_true, Bool.false_eq_true, if_false] at hspot hact1 hact2 hov <;>
          first
            | (exact absurd hact1 (by simp))
            | (exact absurd hact2 (by simp))
            | (exact hab hspot hact1 hact2 hov)

lemma inv_init : DBInv initDB := by
  refine ⟨⟨?_, ?_⟩, ?_, ?_⟩ <;>
    simp [initDB, availability_implies_active, active_windows_disjoint]

lemma step_inv {a b : DB} (hstep : Step a b) (h : DBInv a) : DBInv b := by
  cases hstep with
  | lot p => exact inv_create_lot a p h
  | spot lid p => exact inv_create_spot a lid p h
  | release sid => exact inv_release_spot a sid h
  | reserve p => exact inv_create_reservation a p h
  | endRes rid => exact inv_end_reservation a rid h

lemma reachable_inv {db : DB} (h : Reachable db) : DBInv db := by
  induction h with
  | refl => exact inv_init
  | tail _ hstep ih => exact step_inv hstep ih

/-- C1: code bug at the window boundary. In db3 the only active reservation on spot 1 occupies the window 10 to 11, so a request for the window 9 to 10 touches it only at the boundary and overlaps no active window under the strict half-open test; the handler still raises Conflict, because its filter compares existing.start_time to the new end with a non-strict comparison. The symmetric boundary request for the window 11 to 12 is accepted, showing the asymmetry. -/
theorem parking_C1_boundary_conflict_bug :
    (∀ r ∈ db3.reservations, r.status = "active" → r.spot_id = 1 →
      ¬(r.start_time < 10 ∧ 9 < r.end_time)) ∧
    (create_reservation db3 ⟨1, 9, 10, "KA03"⟩).1 = .error .conflict ∧
    (create_reservation db3 ⟨1, 11, 12, "KA04"⟩).1 =
      .ok ⟨2, 1, 11, 12, "KA04", "active"⟩ := by
  decide

/-- C8 counterexample: create_lot accepts latitude 999, longitude 999 and an empty name, creating the lot instead of failing with ValidationError. -/
theorem parking_C8_counterexample :
    (create_lot initDB ⟨"", 999, 999⟩).2.lots =
      [⟨1, "", 999, 999⟩] := by
  decide

/-- C3 counterexample: db4 is reachable (create lot, create spot, create reservation, release spot) and contains a spot marked available that still owns an active reservation, so the availability flag is not equivalent to the existence of an active reservation. -/
theorem parking_C3_counterexample :
    Reachable db4 ∧ ∃ s ∈ db4.spots, s.is_available = true ∧
      ∃ r ∈ db4.reservations, r.spot_id = s.id ∧ r.status = "active" := by
  refine ⟨reachable_db4, ?_⟩
  decide

/-- C4 counterexample: db5 is reachable and spot 1 owns two distinct reservations that are both active, so a spot can have more than one active reservation. -/
theorem parking_C4_counterexample :
    Reachable db5 ∧ ∃ r1 ∈ db5.reservations, ∃ r2 ∈ db5.reservations,
      r1.id ≠ r2.id ∧ r1.spot_id = r2.spot_id ∧
      r1.status = "active" ∧ r2.status = "active" := by
  refine ⟨reachable_db5, ?_⟩
  decide

/-- C10 counterexample: in db3, spot 1 exists with is_available false and no active reservation strictly overlaps the requested window 9 to 10, yet creation fails with Conflict because of the non-strict boundary comparison in the overlap filter. -/
theorem parking_C10_counterexample :
    (∃ s ∈ db3.spots, s.id = 1 ∧ s.is_available = false) ∧
    (∀ r ∈ db3.reservations, r.spot_id = 1 → r.status = "active" →
      ¬(r.start_time < 10 ∧ 9 < r.end_time)) ∧
    (create_reservation db3 ⟨1, 9, 10, "KA05"⟩).1 = .error .conflict := by
  decide

/-- C2: create_reservation rejects end_time at most start_time with ValidationError, rejects an absent spot with NotFound, leaves the store unchanged on every error outcome, and on success returns the freshly numbered active reservation for the requested spot, window and plate, appends exactly that reservation, and sets the availability of the spot to false. -/
theorem parking_C2_create_reservation_spec (db : DB) (p : ReserveCreate) :
    (p.end_time ≤ p.start_time →
      create_reservation db p = (.error .validationError, db)) ∧
    (p.start_time < p.end_time → db.getSpot p.spot_id = none →
      create_reservation db p = (.error .notFound, db)) ∧
    (∀ e, (create_reservation db p).1 = .error e →
      (create_reservation db p).2 = db) ∧
    (∀ s, p.start_time < p.end_time → db.getSpot p.spot_id = some s →
      db.reservations.find? (conflictsWith p) = none →
      create_reservation db p =
        (.ok ⟨db.next_res_id, p.spot_id, p.start_time, p.end_time,
              p.vehicle_plate, "active"⟩,
         { db with
           reservations := db.reservations ++
             [⟨db.next_res_id, p.spot_id, p.start_time, p.end_time,
               p.vehicle_plate, "active"⟩],
           spots := setSpotAvailability db.spots p.spot_id false,
           next_res_id := db.next_res_id + 1 })) := by
  refine ⟨?_, ?_, ?_, ?_⟩
  · intro hle
    have hv : p.validOrder = false := by
      simp [ReserveCreate.validOrder, Nat.not_lt.mpr hle]
    simp [create_reservation, hv]
  · intro hlt hnone
    have hv : ¬ (p.validOrder = false) := by
      simp [ReserveCreate.validOrder, hlt]
    simp [create_reservation, hv, hnone]
  · intro e
    unfold create_reservation
    split
    · intro _; rfl
    · split
      · intro _; rfl
      · split
        · intro _; rfl
        · dsimp only
          intro hcontra
          simp at hcontra
  · intro s hlt hsome hfind
    have hv : ¬ (p.validOrder = false) := by
      simp [ReserveCreate.validOrder, hlt]
    simp [create_reservation, hv, hsome, hfind]

/-- C2 witness: the success case evaluated on db2. -/
theorem parking_C2_witness :
    create_reservation db2 ⟨1, 10, 11, "KA01"⟩ =
      (.ok ⟨1, 1, 10, 11, "KA01", "active"⟩,
       { db2 with
         reservations := db2.reservations ++ [⟨1, 1, 10, 11, "KA01", "active"⟩],
         spots := setSpotAvailability db2.spots 1 false,
         next_res_id := 2 }) :=
  (parking_C2_create_reservation_spec db2 ⟨1, 10, 11, "KA01"⟩).2.2.2
    ⟨1, 1, "A", "car", true⟩ (by decide) (by decide) (by decide)

/-- C9: create_spot rejects a category outside car, bike, ev with ValidationError, an absent lot with NotFound, and a duplicate label within the same lot with Conflict; otherwise it inserts and returns a spot that is available, and the SpotCreate category defaults to car when unset. -/
theorem parking_C9_create_spot_spec (db : DB) (lid : Nat) (p : SpotCreate) :
    (p.validType = false → create_spot db lid p = (.error .validationError, db)) ∧
    (p.validType = true → db.getLot lid = none →
      create_spot db lid p = (.error .notFound, db)) ∧
    (∀ L s0, p.validType = true → db.getLot lid = some L →
      db.spots.find? (fun s => s.lot_id == lid && s.number == p.number) = some s0 →
      create_spot db lid p = (.error .conflict, db)) ∧
    (∀ L, p.validType = true → db.getLot lid = some L →
      db.spots.find? (fun s => s.lot_id == lid && s.number == p.number) = none →
      create_spot db lid p =
        (.ok ⟨db.next_spot_id, lid, p.number, p.type, true⟩,
         { db with
           spots := db.spots ++ [⟨db.next_spot_id, lid, p.number, p.type, true⟩],
           next_spot_id := db.next_spot_id + 1 })) ∧
    (∀ n : String, ({ number := n } : SpotCreate).type = "car") := by
  refine ⟨?_, ?_, ?_, ?_, fun n => rfl⟩
  · intro hv
    simp [create_spot, hv]
  · intro hv hnone
    simp [create_spot, hv, hnone]
  · intro L s0 hv hsome hdup
    simp [create_spot, hv, hsome, hdup]
  · intro L hv hsome hdup
    simp [create_spot, hv, hsome, hdup]

/-- C9 witness: label A duplicated inside lot 1 fails with Conflict, while the same label A in the freshly created lot 2 succeeds. -/
theorem parking_C9_witness :
    create_spot db2 1 ⟨"A", "bike"⟩ = (.error .conflict, db2) ∧
    create_spot (create_lot db2 ⟨"M", 1, 1⟩).2 2 ⟨"A", "car"⟩ =
      (.ok ⟨2, 2, "A", "car", true⟩,
       { (create_lot db2 ⟨"M", 1, 1⟩).2 with
         spots := (create_lot db2 ⟨"M", 1, 1⟩).2.spots ++ [⟨2, 2, "A", "car", true⟩],
         next_spot_id := 3 }) :=
  ⟨(parking_C9_create_spot_spec db2 1 ⟨"A", "bike"⟩).2.2.1
      ⟨1, "L", 0, 0⟩ ⟨1, 1, "A", "car", true⟩ (by decide) (by decide) (by decide),
   (parking_C9_create_spot_spec (create_lot db2 ⟨"M", 1, 1⟩).2 2 ⟨"A", "car"⟩).2.2.2.1
      ⟨2, "M", 1, 1⟩ (by decide) (by decide) (by decide)⟩

/-- Lookup by id commutes with the status update map of end_reservation, because the update preserves ids. -/
lemma find?_id_map_status (l : List Reservation) (rid : Nat) :
    (l.map (fun x => if x.id == rid then { x with status := "ended" } else x)).find?
        (fun x => x.id == rid) =
      (l.find? (fun x => x.id == rid)).map
        (fun x => if x.id == rid then { x with status := "ended" } else x) := by
  rw [List.find?_map]
  have hcomp : ((fun x : Reservation => x.id == rid) ∘
      (fun x => if x.id == rid then { x with status := "ended" } else x)) =
      (fun x : Reservation => x.id == rid) := by
    funext x
    by_cases hc : (x.id == rid) = true <;> simp [Function.comp, hc]
  rw [hcomp]

/-- C5: end_reservation rejects an absent reservation with NotFound and a non-active one with InvalidState; on an active reservation it returns the row with status ended, maps that status change over the table, and sets the owning spot available; an immediate second call on the same id fails with InvalidState and leaves the store unchanged. -/
theorem parking_C5_end_reservation_spec (db : DB) (rid : Nat) :
    (db.getReservation rid = none → end_reservation db rid = (.error .notFound, db)) ∧
    (∀ r, db.getReservation rid = some r → r.status ≠ "active" →
      end_reservation db rid = (.error .invalidState, db)) ∧
    (∀ r, db.getReservation rid = some r → r.status = "active" →
      end_reservation db rid =
        (.ok { r with status := "ended" },
         { db with
           reservations := db.reservations.map
             (fun x => if x.id == rid then { x with status := "ended" } else x),
           spots := setSpotAvailability db.spots r.spot_id true }) ∧
      end_reservation (end_reservation db rid).2 rid =
        (.error .invalidState, (end_reservation db rid).2)) := by
  refine ⟨?_, ?_, ?_⟩
  · intro hnone
    simp [end_reservation, hnone]
  · intro r hsome hne
    have hb : (r.status != "active") = true := bne_iff_ne.mpr hne
    simp [end_reservation, hsome, hb]
  · intro r hsome hact
    have hb : (r.status != "active") = false := by
      simp [bne_eq_false_iff_eq, hact]
    have h1 : end_reservation db rid =
        (.ok { r with status := "ended" },
         { db with
           reservations := db.reservations.map
             (fun x => if x.id == rid then { x with status := "ended" } else x),
           spots := setSpotAvailability db.spots r.spot_id true }) := by
      simp [end_reservation, hsome, hb]
    refine ⟨h1, ?_⟩
    have hrid : r.id = rid := by
      have hp := List.find?_some
        (show db.reservations.find? (fun x => x.id == rid) = some r from hsome)
      simpa using hp
    rw [h1]
    have hget2 : ({ db with
        reservations := db.reservations.map
          (fun x => if x.id == rid then { x with status := "ended" } else x),
        spots := setSpotAvailability db.spots r.spot_id true } : DB).getReservation
          rid = some { r with status := "ended" } := by
      show (db.reservations.map _).find? _ = _
      rw [find?_id_map_status,
        show db.reservations.find? (fun x => x.id == rid) = some r from hsome]
      simp [hrid]
    simp only [end_reservation]
    rw [hget2]
    simp

/-- C5 witness: ending reservation 1 of db3 twice; the second call fails with InvalidState and changes nothing. -/
theorem parking_C5_witness :
    end_reservation (end_reservation db3 1).2 1 =
      (.error .invalidState, (end_reservation db3 1).2) :=
  ((parking_C5_end_reservation_spec db3 1).2.2
    ⟨1, 1, 10, 11, "KA01", "active"⟩ (by decide) (by decide)).2

/-- C10 (amended): create_reservation never reads the availability flag; whenever the spot exists, the window is well ordered and no active reservation on the spot passes the overlap filter of the code, creation succeeds even though is_available is false. -/
theorem parking_C10_ignores_availability (db : DB) (p : ReserveCreate)
    (s : ParkingSpot) :
    p.start_time < p.end_time →
    db.getSpot p.spot_id = some s →
    s.is_available = false →
    (∀ r ∈ db.reservations, r.spot_id = p.spot_id → r.status = "active" →
      ¬(r.start_time ≤ p.end_time ∧ p.start_time < r.end_time)) →
    (create_reservation db p).1 =
      .ok ⟨db.next_res_id, p.spot_id, p.start_time, p.end_time,
           p.vehicle_plate, "active"⟩ := by
  intro hlt hs _ hno
  have hfind : db.reservations.find? (conflictsWith p) = none := by
    rw [List.find?_eq_none]
    intro r hr
    simp only [conflictsWith, Bool.and_eq_true, beq_iff_eq, decide_eq_true_eq]
    rintro ⟨⟨⟨hsp, hst⟩, hle⟩, hlt2⟩
    exact hno r hr hsp hst ⟨hle, hlt2⟩
  have hv : ¬ (p.validOrder = false) := by
    simp [ReserveCreate.validOrder, hlt]
  simp [create_reservation, hv, hs, hfind]

/-- C10 witness: in db3 spot 1 is unavailable because of the active window 10 to 11, and the disjoint window 20 to 21 is still accepted. -/
theorem parking_C10_witness :
    (create_reservation db3 ⟨1, 20, 21, "KA06"⟩).1 =
      .ok ⟨2, 1, 20, 21, "KA06", "active"⟩ :=
  parking_C10_ignores_availability db3 ⟨1, 20, 21, "KA06"⟩
    ⟨1, 1, "A", "car", false⟩ (by decide) (by decide) (by decide) (by decide)

/-- C3 (amended): in every reachable store, a spot marked unavailable owns at least one active reservation; the converse direction is refuted by the C3 counterexample. -/
theorem parking_C3_availability_amended (db : DB) (h : Reachable db) :
    availability_implies_active db :=
  (reachable_inv h).2.1

/-- C3 witness: the amended invariant instantiated at the reachable store db3. -/
theorem parking_C3_witness : availability_implies_active db3 :=
  parking_C3_availability_amended db3 reachable_db3

/-- C4 (amended): in every reachable store, any two active reservations on the same spot have non-overlapping half-open windows; at most one active reservation per spot is refuted by the C4 counterexample. -/
theorem parking_C4_disjoint_amended (db : DB) (h : Reachable db) :
    active_windows_disjoint db :=
  (reachable_inv h).2.2

/-- C4 witness: the amended invariant instantiated at the reachable store db5. -/
theorem parking_C4_witness : active_windows_disjoint db5 :=
  parking_C4_disjoint_amended db5 reachable_db5

/-- C8 (amended): create_lot validates nothing; for every payload, including out-of-range coordinates or an empty name, it returns the new lot built from the payload fields and appends it to the table. -/
theorem parking_C8_create_lot_amended (db : DB) (p : LotCreate) :
    (create_lot db p).1 =
      (⟨db.next_lot_id, p.name, p.latitude, p.longitude⟩ : ParkingLot) ∧
    (create_lot db p).2 =
      { db with lots := db.lots ++ [⟨db.next_lot_id, p.name, p.latitude, p.longitude⟩],
                next_lot_id := db.next_lot_id + 1 } :=
  ⟨rfl, rfl⟩

/-- C7: the two-stage search (coarse lot filter at radius times 1.5, then exact per-spot filter at the radius) selects exactly the same spots, in the same order and with the same distances, as the single-stage search that filters every available spot directly by the distance of its lot. -/
theorem parking_C7_two_stage_refinement (db : DB)
    (dist : Rat → Rat → Rat → Rat → Rat) (lat lng : Rat) (radius_m : Nat) :
    search_results db dist lat lng radius_m =
      search_single_stage db dist lat lng radius_m := by
  unfold search_results search_single_stage
  dsimp only
  rw [List.filterMap_filter]
  apply List.filterMap_congr
  intro s _
  by_cases hav : s.is_available = true
  · cases hfind : db.lots.find? (fun l => l.id == s.lot_id) with
    | none =>
      simp [hav, hfind]
    | some L =>
      by_cases hd : dist lat lng L.latitude L.longitude ≤ (radius_m : Rat)
      · have hL : L ∈ db.lots := List.mem_of_find?_eq_some hfind
        have hLid : L.id = s.lot_id := by
          have hp := List.find?_some hfind
          simpa using hp
        have hcoarse :
            dist lat lng L.latitude L.longitude ≤ (radius_m : Rat) * 1.5 :=
          le_trans hd (le_mul_of_one_le_right (Nat.cast_nonneg radius_m)
            (by norm_num))
        have hmm : s.lot_id ∈ coarse_lot_ids db dist lat lng radius_m := by
          unfold coarse_lot_ids
          exact List.mem_map.mpr
            ⟨L, List.mem_filter.mpr ⟨hL, by simpa using hcoarse⟩, hLid⟩
        simp [hav, hfind, hd, hmm]
      · simp [hav, hfind, hd]
  · have hav2 : s.is_available = false := by simpa using hav
    simp [hav2]

/-- C6: every entry returned by search_spots is an available spot whose owning lot lies within radius_m of the query point under the given distance function, paired with that distance rounded to two decimals; the output is sorted ascending by the reported distance and has at most limit entries. -/
theorem parking_C6_search_spec (db : DB)
    (dist : Rat → Rat → Rat → Rat → Rat) (lat lng : Rat) (radius_m limit : Nat) :
    (∀ x ∈ search_spots db dist lat lng radius_m limit,
      x.1.is_available = true ∧
      ∃ L, db.lots.find? (fun l => l.id == x.1.lot_id) = some L ∧
        dist lat lng L.latitude L.longitude ≤ (radius_m : Rat) ∧
        x.2 = py_round2 (dist lat lng L.latitude L.longitude)) ∧
    (search_spots db dist lat lng radius_m limit).Pairwise
      (fun a b => a.2 ≤ b.2) ∧
    (search_spots db dist lat lng radius_m limit).length ≤ limit := by
  unfold search_spots
  split
  · simp
  · refine ⟨?_, ?_, ?_⟩
    · intro x hx
      have hx3 : x ∈ search_results db dist lat lng radius_m :=
        List.mem_mergeSort.mp (List.mem_of_mem_take hx)
      unfold search_results at hx3
      dsimp only at hx3
      rcases List.mem_filterMap.mp hx3 with ⟨s, hsmem, hmap⟩
      rcases List.mem_filter.mp hsmem with ⟨-, hcond⟩
      have hsav : s.is_available = true := by
        simp only [Bool.and_eq_true, decide_eq_true_eq] at hcond
        exact hcond.1
      cases hfind : db.lots.find? (fun l => l.id == s.lot_id) with
      | none =>
        rw [hfind] at hmap
        simp at hmap
      | some L =>
        rw [hfind] at hmap
        dsimp only at hmap
        by_cases hd : dist lat lng L.latitude L.longitude ≤ (radius_m : Rat)
        · rw [if_pos hd] at hmap
          cases hmap
          exact ⟨hsav, L, hfind, hd, rfl⟩
        · rw [if_neg hd] at hmap
          exact absurd hmap (by simp)
    · have hs := @List.sorted_mergeSort (ParkingSpot × Rat)
        (fun a b => decide (a.2 ≤ b.2))
        (fun a b c hab hbc => by
          simp only [decide_eq_true_eq] at *
          exact le_trans hab hbc)
        (fun a b => by
          simp only [Bool.or_eq_true, decide_eq_true_eq]
          exact le_total a.2 b.2)
        (search_results db dist lat lng radius_m)
      have hpw : ((search_results db dist lat lng radius_m).mergeSort
          (fun a b => decide (a.2 ≤ b.2))).Pairwise
          (fun a b : ParkingSpot × Rat => a.2 ≤ b.2) :=
        hs.imp (fun h => of_decide_eq_true h)
      exact List.Pairwise.sublist (List.take_sublist _ _) hpw
    · exact List.length_take_le _ _

/-- Explicit form of the scenario store db2. -/
lemma db2_eval :
    db2 = ⟨[⟨1, "L", 0, 0⟩], [⟨1, 1, "A", "car", true⟩], [], 2, 2, 1⟩ := by
  decide

/-- Evaluation of the search pipeline on db2 under the zero distance
function; the rational arithmetic is discharged by norm_num because it
does not reduce inside the kernel. -/
lemma search_db2_eval :
    search_spots db2 (fun _ _ _ _ => 0) 0 0 1000 20 =
      [(⟨1, 1, "A", "car", true⟩, 0)] := by
  rw [db2_eval]
  unfold search_spots search_results coarse_lot_ids
  norm_num [py_round2, round_half_even, List.filterMap_cons,
    List.mergeSort_singleton]

/-- C6 witness: a lot at the origin with one available spot, queried at the
origin under the zero distance function. -/
theorem parking_C6_witness :
    ((⟨1, 1, "A", "car", true⟩ : ParkingSpot), (0 : Rat)) ∈
        search_spots db2 (fun _ _ _ _ => 0) 0 0 1000 20 ∧
    ((⟨1, 1, "A", "car", true⟩ : ParkingSpot), (0 : Rat)).1.is_available = true :=
  ⟨by rw [search_db2_eval]; exact List.mem_singleton.mpr rfl,
   ((parking_C6_search_spec db2 (fun _ _ _ _ => 0) 0 0 1000 20).1
      _ (by rw [search_db2_eval]; exact List.mem_singleton.mpr rfl)).1⟩

end Parking
